import Mathlib

/-!
Verification development for the phase-four task-management backend.

The Python sources under `src/phase-four/backend/src` are shallowly embedded:
pure logic becomes Lean functions, the SQL database becomes explicit list-valued
stores threaded through each function, `datetime.utcnow()` and `uuid4()` become
counters threaded through a `Store`, and Python exceptions become `Except` with
the store returned alongside (a raise happens before any commit on every
embedded error path, so the store is unchanged there).

Notational conventions of the embedding:
- UUIDs are abstracted as natural numbers; `str(uuid)` becomes `toString`.
- Timestamps (`datetime`) are natural numbers; `isoformat()` becomes `toString`.
- Python `str.strip()` is `pyStrip` (drop whitespace from both ends).
- JSON serialisation (`json.dumps`) of tool inputs/outputs is embedded by
  concrete rendering functions; no claim inspects the rendered text.
-/

namespace TaskApi

/-- UUIDs are abstracted as natural numbers. -/
abbrev UUID := Nat

/-- Python `str.strip` on a list of characters: drop whitespace from the front,
then from the back. -/
def stripChars (l : List Char) : List Char :=
  ((l.dropWhile Char.isWhitespace).reverse.dropWhile Char.isWhitespace).reverse

/-- Python `title.strip()`: remove leading and trailing whitespace. -/
def pyStrip (s : String) : String :=
  ⟨stripChars s.data⟩

/-- Task entity. Modelled from the spec: the file `src/models/task.py` is not
among the provided sources; fields and the `is_completed=false` default follow
spec section 3 and the `create_task` docstring
(is_completed: bool, always False for new tasks). -/
structure Task where
  id : UUID
  user_id : UUID
  title : String
  description : Option String
  is_completed : Bool
  created_at : Nat
  updated_at : Nat
deriving Repr, DecidableEq

/-- Typed errors of the embedded code. Constructors mirror the exception
classes raised by the Python sources: `ValidationError` and `NotFoundError`
from `src/api/schemas/errors`, Python `ValueError` / `TypeError` / `KeyError`,
and an upstream model failure (`OpenAIError`). The spec taxonomy's
`InvalidArgument` is the `ValueError` raised by `list_tasks` on a bad limit. -/
inductive Err where
  | validationError (message : String) (details : Option Nat)
  | notFound (resource : String) (resource_id : String) (message : String)
  | valueErr (message : String)
  | typeError (message : String)
  | keyError (key : String)
  | modelError (message : String)
deriving Repr, DecidableEq

/-- Python `str(e)` on a caught exception, as used for `error_message`. -/
def errStr : Err → String
  | .validationError m _ => m
  | .notFound _ _ m => m
  | .valueErr m => m
  | .typeError m => m
  | .keyError k => k
  | .modelError m => m

/-- Serialized task returned by `create_task`
(keys id, title, description, is_completed, created_at). -/
structure TaskDict where
  id : String
  title : String
  description : Option String
  is_completed : Bool
  created_at : String
deriving Repr, DecidableEq

/-- Serialized task returned by `list_tasks` (additionally has updated_at). -/
structure TaskFullDict where
  id : String
  title : String
  description : Option String
  is_completed : Bool
  created_at : String
  updated_at : String
deriving Repr, DecidableEq

/-- Serialized task returned by `update_task`
(keys id, title, description, is_completed, updated_at). -/
structure TaskUpdDict where
  id : String
  title : String
  description : Option String
  is_completed : Bool
  updated_at : String
deriving Repr, DecidableEq

/-- Embedding of `mcp_tools.create_task`. The title arrives as
`tool_args.get("title")`, hence an `Option`; Python `not title` makes a missing
title fail exactly like an empty one. `newId` and `now` stand for the ambient
`uuid4()` and `datetime.utcnow()` of the created row. On an error path the
store is returned unchanged (the raise precedes any `session` mutation). -/
def create_task (title : Option String) (description : Option String)
    (user_id : UUID) (st : List Task) (newId : UUID) (now : Nat) :
    (Except Err TaskDict) × List Task :=
  match title with
  | none => (.error (.validationError "Title is required and cannot be empty" none), st)
  | some t =>
    if (pyStrip t).length = 0 then
      (.error (.validationError "Title is required and cannot be empty" none), st)
    else if 255 < (pyStrip t).length then
      (.error (.validationError "Title must be 1-255 characters" (some (pyStrip t).length)), st)
    else
      let task : Task :=
        { id := newId, user_id := user_id, title := pyStrip t,
          description := description, is_completed := false,
          created_at := now, updated_at := now }
      (.ok { id := toString task.id, title := task.title,
             description := task.description, is_completed := task.is_completed,
             created_at := toString task.created_at },
       st ++ [task])

/-- Descending order on tasks by creation time, mirroring
`order_by(Task.created_at.desc())`. -/
def taskDescLE (a b : Task) : Prop := b.created_at ≤ a.created_at

instance : DecidableRel taskDescLE := fun a b => Nat.decLe b.created_at a.created_at

instance : IsTotal Task taskDescLE := ⟨fun a b => Nat.le_total b.created_at a.created_at⟩

instance : IsTrans Task taskDescLE := ⟨fun _ _ _ h1 h2 => Nat.le_trans h2 h1⟩

/-- Row-serialisation used by `list_tasks`. -/
def serializeTaskFull (t : Task) : TaskFullDict :=
  { id := toString t.id, title := t.title, description := t.description,
    is_completed := t.is_completed, created_at := toString t.created_at,
    updated_at := toString t.updated_at }

/-- The query of `mcp_tools.list_tasks`: user-isolation filter, optional
completion filter, order by created_at descending, cap at `limit`. -/
def list_tasks_query (user_id : UUID) (st : List Task)
    (is_completed : Option Bool) (lim : Nat) : List Task :=
  (((st.filter (fun t =>
      t.user_id == user_id &&
      match is_completed with
      | none => true
      | some b => t.is_completed == b)).insertionSort taskDescLE).take lim)

/-- Embedding of `mcp_tools.list_tasks`. The limit is a Python int; the raise
of `ValueError` on a limit outside 1..100 is the `InvalidArgument` of the
spec taxonomy. Read-only: the task store is not modified. -/
def list_tasks (user_id : UUID) (st : List Task)
    (is_completed : Option Bool := none) (lim : Int := 10) :
    Except Err (List TaskFullDict) :=
  if ¬(1 ≤ lim ∧ lim ≤ 100) then
    .error (.valueErr s!"Limit must be between 1 and 100, got {lim}")
  else
    .ok ((list_tasks_query user_id st is_completed lim.toNat).map serializeTaskFull)

/-- Embedding of SQL UPDATE by primary key after the ORM object mutation:
the row whose id matches is replaced. -/
def dbReplace (st : List Task) (tid : UUID) (t : Task) : List Task :=
  st.map (fun u => if u.id == tid then t else u)

/-- Embedding of `mcp_tools.update_task`: ownership-filtered lookup first
(`NotFound` on miss), then title validation, then the partial update, with
`updated_at` refreshed to `now`. Error paths leave the store unchanged. -/
def update_task (task_id : UUID) (user_id : UUID) (st : List Task)
    (title : Option String) (description : Option String)
    (is_completed : Option Bool) (now : Nat) :
    (Except Err TaskUpdDict) × List Task :=
  match st.find? (fun t => t.id == task_id && t.user_id == user_id) with
  | none =>
    (.error (.notFound "Task" (toString task_id)
        "Task does not exist or does not belong to user"), st)
  | some task =>
    let titleCheck : Except Err Unit :=
      match title with
      | none => .ok ()
      | some ttl =>
        if (pyStrip ttl).length = 0 then
          .error (.validationError "Title cannot be empty" none)
        else if 255 < (pyStrip ttl).length then
          .error (.validationError "Title must be 1-255 characters"
            (some (pyStrip ttl).length))
        else .ok ()
    match titleCheck with
    | .error e => (.error e, st)
    | .ok _ =>
      let task1 : Task :=
        { task with
          title := match title with | none => task.title | some ttl => pyStrip ttl
          description := match description with | none => task.description | some d => some d
          is_completed := match is_completed with | none => task.is_completed | some b => b
          updated_at := now }
      (.ok { id := toString task1.id, title := task1.title,
             description := task1.description, is_completed := task1.is_completed,
             updated_at := toString task1.updated_at },
       dbReplace st task_id task1)

/-- Deletion confirmation returned by `delete_task`
(keys success, deleted_task_id). -/
structure DeleteDict where
  ok : Bool
  deleted_task_id : String
deriving Repr, DecidableEq

/-- Embedding of `mcp_tools.delete_task`: ownership-filtered lookup
(`NotFound` on miss, identical to the nonexistent case), then the found row is
removed and a confirmation with the deleted id returned. -/
def delete_task (task_id : UUID) (user_id : UUID) (st : List Task) :
    (Except Err DeleteDict) × List Task :=
  match st.find? (fun t => t.id == task_id && t.user_id == user_id) with
  | none =>
    (.error (.notFound "Task" (toString task_id)
        "Task does not exist or does not belong to user"), st)
  | some _ =>
    (.ok { ok := true, deleted_task_id := toString task_id },
     st.eraseP (fun t => t.id == task_id && t.user_id == user_id))

/-- Conversation row (`src/models/conversation.py`). -/
structure Conversation where
  id : UUID
  user_id : UUID
  title : Option String
  created_at : Nat
  updated_at : Nat
deriving Repr, DecidableEq

/-- Message row (`src/models/message.py`). -/
structure Message where
  id : UUID
  conversation_id : UUID
  role : String
  content : String
  created_at : Nat
deriving Repr, DecidableEq

/-- ToolInvocation row (`src/models/tool_invocation.py`). -/
structure ToolInvocationRow where
  id : UUID
  message_id : UUID
  tool_name : String
  input_params : String
  output_result : Option String
  success : Bool
  error_message : Option String
  created_at : Nat
deriving Repr, DecidableEq

/-- The database, plus the ambient sources of fresh UUIDs (`uuid4()`) and of
timestamps (`datetime.utcnow()`), both abstracted as counters. Every service
function commits its own writes immediately, and on every embedded error path
the raise precedes the first uncommitted mutation, so immediate-commit
semantics is exact here. -/
structure Store where
  conversations : List Conversation
  messages : List Message
  tool_invocations : List ToolInvocationRow
  tasks : List Task
  nextId : Nat
  clock : Nat
deriving Repr, DecidableEq

/-- Draw a fresh UUID (`uuid4()`). -/
def freshId (s : Store) : UUID × Store :=
  (s.nextId, { s with nextId := s.nextId + 1 })

/-- Read the clock (`datetime.utcnow()`); successive reads strictly increase. -/
def nowTick (s : Store) : Nat × Store :=
  (s.clock, { s with clock := s.clock + 1 })

/-- Embedding of `conversation_service.create_conversation`: build the row with
fresh id and timestamps and commit it. -/
def create_conversation (user_id : UUID) (title : Option String) (s : Store) :
    Conversation × Store :=
  let p := freshId s
  let q := nowTick p.2
  let c : Conversation := { id := p.1, user_id := user_id, title := title,
                            created_at := q.1, updated_at := q.1 }
  (c, { q.2 with conversations := q.2.conversations ++ [c] })

/-- Embedding of `conversation_service.create_message`. The content is an
`Option` because the orchestrator can hand it `None` (a model message with no
text); Python then raises `TypeError` at the `len(content)` check. Role is
validated first, then the length. Error paths leave the store unchanged. -/
def create_message (conversation_id : UUID) (role : String)
    (content : Option String) (s : Store) : (Except Err Message) × Store :=
  if ¬(role = "user" ∨ role = "agent") then
    (.error (.valueErr ("Invalid role: " ++ role ++ ". Must be user or agent")), s)
  else
    match content with
    | none => (.error (.typeError "object of type NoneType has no len"), s)
    | some c =>
      if 5000 < c.length then
        (.error (.valueErr "Message content exceeds maximum length of 5000 characters"), s)
      else
        let p := freshId s
        let q := nowTick p.2
        let m : Message := { id := p.1, conversation_id := conversation_id,
                             role := role, content := c, created_at := q.1 }
        (.ok m, { q.2 with messages := q.2.messages ++ [m] })

/-- Ascending order on messages by creation time, mirroring
`order_by(Message.created_at.asc())`. -/
def msgAscLE (a b : Message) : Prop := a.created_at ≤ b.created_at

instance : DecidableRel msgAscLE := fun a b => Nat.decLe a.created_at b.created_at

instance : IsTotal Message msgAscLE := ⟨fun a b => Nat.le_total a.created_at b.created_at⟩

instance : IsTrans Message msgAscLE := ⟨fun _ _ _ h1 h2 => Nat.le_trans h1 h2⟩

/-- Embedding of `conversation_service.get_conversation_messages`: filter by
conversation, order by created_at ascending, then apply offset and limit.
The Python defaults are `limit=100, offset=0` and the orchestrator calls it
with the defaults. -/
def get_conversation_messages (conversation_id : UUID) (s : Store)
    (lim : Nat := 100) (offset : Nat := 0) : List Message :=
  ((((s.messages.filter (fun m => m.conversation_id == conversation_id)).insertionSort
      msgAscLE).drop offset).take lim)

/-- Embedding of `conversation_service.update_conversation_timestamp`: find the
conversation by id (no owner filter), raise `ValueError` if absent, else set
`updated_at` to now and commit. -/
def update_conversation_timestamp (conversation_id : UUID) (s : Store) :
    (Except Err Unit) × Store :=
  match s.conversations.find? (fun c => c.id == conversation_id) with
  | none => (.error (.valueErr s!"Conversation {conversation_id} not found"), s)
  | some _ =>
    let q := nowTick s
    let convs := q.2.conversations.map
      (fun c => if c.id == conversation_id then { c with updated_at := q.1 } else c)
    (.ok (), { q.2 with conversations := convs })

/-- The fixed system instruction of `agent_service.SYSTEM_PROMPT`. The constant
is far longer in the source; it is opaque to every claim (only its position as
the one fixed system message matters), so the embedding keeps its first
sentences only. -/
def SYSTEM_PROMPT : String :=
  "You are a helpful task management assistant. Your role is to help users manage their todo tasks through natural language conversation."

/-- Parsed tool-call arguments. The source receives them as a JSON string and
runs `json.loads`; the embedding starts from the parsed shape (no claim
concerns malformed JSON, which would abort the turn before the tool loop).
The `task_id` is likewise kept parsed (`UUID(...)` string parsing abstracted);
a missing `task_id` still reproduces the `KeyError` of `tool_args["task_id"]`. -/
structure ToolArgs where
  title : Option String
  description : Option String
  is_completed : Option Bool
  lim : Option Int
  task_id : Option UUID
deriving Repr, DecidableEq

/-- One requested tool call (`tool_call.id`, `.function.name`,
`.function.arguments`). -/
structure ToolCall where
  id : String
  name : String
  arguments : ToolArgs
deriving Repr, DecidableEq

/-- One entry of the transcript handed to the model: a plain role-tagged text
message, the assistant message carrying tool-call requests, or a tool-result
message. -/
inductive ChatEntry where
  | simple (role : String) (content : String)
  | assistantCalls (content : Option String) (calls : List ToolCall)
  | toolReply (tool_call_id : String) (content : String)
deriving Repr, DecidableEq

/-- The role tag of a transcript entry. -/
def ChatEntry.roleTag : ChatEntry → String
  | .simple r _ => r
  | .assistantCalls _ _ => "assistant"
  | .toolReply _ _ => "tool"

/-- Embedding of `agent_service._build_openai_messages`: one system message,
then each stored message with its `role` field copied verbatim, then the new
user message. -/
def _build_openai_messages (conversation_messages : List Message)
    (new_user_message : String) : List ChatEntry :=
  [ChatEntry.simple "system" SYSTEM_PROMPT]
    ++ conversation_messages.map (fun m => ChatEntry.simple m.role m.content)
    ++ [ChatEntry.simple "user" new_user_message]

/-- The message returned by the first completion call: optional text plus the
requested tool calls (an empty list embeds a falsy `tool_calls`). -/
structure AssistantMsg where
  content : Option String
  tool_calls : List ToolCall
deriving Repr, DecidableEq

/-- The external completion service, abstracted per spec section 6: the first
call returns text and/or tool calls, the second call returns the final text
(`choices[0].message.content`, possibly absent). An `Except.error` is the
upstream model failure that aborts the turn. -/
structure ModelOracle where
  first : List ChatEntry → Except Err AssistantMsg
  second : List ChatEntry → Except Err (Option String)

/-- The structured result of one tool execution, before serialisation. -/
inductive ToolResult where
  | created (d : TaskDict)
  | listed (ds : List TaskFullDict)
  | updated (d : TaskUpdDict)
  | deleted (d : DeleteDict)
deriving Repr, DecidableEq

/-- Stands for `json.dumps(tool_args)`; no claim inspects the rendered text. -/
def renderArgs (a : ToolArgs) : String := reprStr a

/-- Stands for `json.dumps(tool_result)`; no claim inspects the rendered text. -/
def renderResult (r : ToolResult) : String := reprStr r

/-- Embedding of `agent_service._execute_tool`: dispatch on the tool name,
inject the calling `user_id`, run the matching operation on the task store.
Fresh row ids and timestamps come from the store counters. Every error path
hands back the incoming store unchanged (each tool raises before committing). -/
def _execute_tool (tool_name : String) (args : ToolArgs) (user_id : UUID)
    (s : Store) : (Except Err ToolResult) × Store :=
  if tool_name = "create_task" then
    let p := freshId s
    let q := nowTick p.2
    let r := create_task args.title args.description user_id q.2.tasks p.1 q.1
    match r.1 with
    | .error e => (.error e, s)
    | .ok d => (.ok (.created d), { q.2 with tasks := r.2 })
  else if tool_name = "list_tasks" then
    match list_tasks user_id s.tasks args.is_completed (args.lim.getD 10) with
    | .error e => (.error e, s)
    | .ok ds => (.ok (.listed ds), s)
  else if tool_name = "update_task" then
    match args.task_id with
    | none => (.error (.keyError "task_id"), s)
    | some tid =>
      let q := nowTick s
      let r := update_task tid user_id q.2.tasks args.title args.description
        args.is_completed q.1
      match r.1 with
      | .error e => (.error e, s)
      | .ok d => (.ok (.updated d), { q.2 with tasks := r.2 })
  else if tool_name = "delete_task" then
    match args.task_id with
    | none => (.error (.keyError "task_id"), s)
    | some tid =>
      let r := delete_task tid user_id s.tasks
      match r.1 with
      | .error e => (.error e, s)
      | .ok d => (.ok (.deleted d), { s with tasks := r.2 })
  else
    (.error (.valueErr ("Unknown tool: " ++ tool_name)), s)

/-- One element of the in-memory `tool_invocations` list built by the tool
loop of `process_message`. -/
structure InvocationDict where
  tool_name : String
  input_params : String
  output_result : Option String
  success : Bool
  error_message : Option String
deriving Repr, DecidableEq

/-- The invocation record written by one pass of the tool loop: a success
records the serialized output, a caught exception records `str(e)`. -/
def invRecord (tc : ToolCall) (r : Except Err ToolResult) : InvocationDict :=
  match r with
  | .ok res =>
    { tool_name := tc.name, input_params := renderArgs tc.arguments,
      output_result := some (renderResult res), success := true,
      error_message := none }
  | .error e =>
    { tool_name := tc.name, input_params := renderArgs tc.arguments,
      output_result := none, success := false,
      error_message := some (errStr e) }

/-- The tool loop of `process_message`: execute each requested call in order;
a raised exception is caught and recorded — it never propagates. -/
def runToolCalls (calls : List ToolCall) (user_id : UUID) (s : Store) :
    List InvocationDict × Store :=
  match calls with
  | [] => ([], s)
  | tc :: rest =>
    let p := _execute_tool tc.name tc.arguments user_id s
    let q := runToolCalls rest user_id p.2
    (invRecord tc p.1 :: q.1, q.2)

/-- Content of the tool-result transcript entry: the serialized output on
success, otherwise the recorded error prefixed with `Error: `. The `getD`
arms mirror a Python `None` rendering and are unreachable given the loop
invariant (success entries always carry an output, failures an error). -/
def toolMsgContent (inv : InvocationDict) : String :=
  if inv.success then inv.output_result.getD "null"
  else "Error: " ++ (inv.error_message.getD "None")

/-- One tool-result transcript entry per executed call, in call order
(the source pairs `tool_calls` with `tool_invocations` by index). -/
def toolResultEntries (calls : List ToolCall) (invs : List InvocationDict) :
    List ChatEntry :=
  (calls.zip invs).map (fun p => ChatEntry.toolReply p.1.id (toolMsgContent p.2))

/-- The value returned by `process_message`. -/
structure TurnResult where
  agent_response_text : String
  conversation_id : UUID
  message_id : UUID
  tool_invocations : List InvocationDict
deriving Repr, DecidableEq

/-- Persist one `ToolInvocation` row per recorded call, each linked to the
agent message. -/
def persistInvocations (message_id : UUID) (invs : List InvocationDict)
    (s : Store) : Store :=
  match invs with
  | [] => s
  | inv :: rest =>
    let p := freshId s
    let q := nowTick p.2
    let row : ToolInvocationRow :=
      { id := p.1, message_id := message_id, tool_name := inv.tool_name,
        input_params := inv.input_params, output_result := inv.output_result,
        success := inv.success, error_message := inv.error_message,
        created_at := q.1 }
    persistInvocations message_id rest
      { q.2 with tool_invocations := q.2.tool_invocations ++ [row] }

/-- The persistence tail of `process_message`: commit the user message, the
agent message (whose content is the final answer — a `None` answer raises in
`create_message`), the tool invocation rows, then touch the conversation
timestamp, and return the turn result. -/
def finishTurn (cid : UUID) (user_message : String) (agentText : Option String)
    (invs : List InvocationDict) (s : Store) : (Except Err TurnResult) × Store :=
  let p1 := create_message cid "user" (some user_message) s
  match p1.1 with
  | .error e => (.error e, p1.2)
  | .ok _ =>
    let p2 := create_message cid "agent" agentText p1.2
    match p2.1 with
    | .error e => (.error e, p2.2)
    | .ok agent_msg =>
      let s3 := persistInvocations agent_msg.id invs p2.2
      let p3 := update_conversation_timestamp cid s3
      match p3.1 with
      | .error e => (.error e, p3.2)
      | .ok _ =>
        (.ok { agent_response_text := agent_msg.content, conversation_id := cid,
               message_id := agent_msg.id, tool_invocations := invs }, p3.2)

/-- Embedding of `agent_service.process_message`, the turn orchestrator:
length check, load-or-create conversation, build the transcript, first model
call, tool loop plus second model call when tools were requested, then
persistence. Model failures abort the turn with the store as committed so
far. -/
def process_message (user_message : String) (user_id : UUID)
    (conversation_id : Option UUID) (oracle : ModelOracle) (s : Store) :
    (Except Err TurnResult) × Store :=
  if 5000 < user_message.length then
    (.error (.valueErr "Message content exceeds maximum length of 5000 characters"), s)
  else
    let loaded : UUID × List Message × Store :=
      match conversation_id with
      | none =>
        let (conv, s1) := create_conversation user_id none s
        (conv.id, [], s1)
      | some cid => (cid, get_conversation_messages cid s, s)
    let cid := loaded.1
    let transcript := _build_openai_messages loaded.2.1 user_message
    match oracle.first transcript with
    | .error e => (.error e, loaded.2.2)
    | .ok assistant_message =>
      match assistant_message.tool_calls with
      | [] => finishTurn cid user_message assistant_message.content [] loaded.2.2
      | c :: cs =>
        let q := runToolCalls (c :: cs) user_id loaded.2.2
        let transcript2 := transcript
          ++ [ChatEntry.assistantCalls assistant_message.content (c :: cs)]
          ++ toolResultEntries (c :: cs) q.1
        match oracle.second transcript2 with
        | .error e => (.error e, q.2)
        | .ok finalText => finishTurn cid user_message finalText q.1 q.2

/-- Response-shaping of `api/routes/chat.py`: each summary entry selects
`result` or `error` by the `success` flag. -/
structure ToolInvocationSummary where
  tool_name : String
  success : Bool
  result : Option String
  error : Option String
deriving Repr, DecidableEq

/-- The per-invocation summary built in `send_chat_message`. -/
def toolInvocationSummary (inv : InvocationDict) : ToolInvocationSummary :=
  { tool_name := inv.tool_name, success := inv.success,
    result := if inv.success then inv.output_result else none,
    error := if inv.success then none else inv.error_message }

/-- Predicate: the string has no leading and no trailing whitespace. -/
def noEdgeWS (s : String) : Prop :=
  (∀ c, s.data.head? = some c → c.isWhitespace = false) ∧
  (∀ c, s.data.getLast? = some c → c.isWhitespace = false)

/-- An empty database with counters at zero. -/
def emptyStore : Store :=
  { conversations := [], messages := [], tool_invocations := [], tasks := [],
    nextId := 0, clock := 0 }

/-- A store holding one conversation (id 0) with 101 stored messages. -/
def store101 : Store :=
  { conversations := [{ id := 0, user_id := 1, title := none,
                        created_at := 0, updated_at := 0 }],
    messages := (List.range 101).map
      (fun i => { id := i + 1, conversation_id := 0, role := "user",
                  content := "x", created_at := i }),
    tool_invocations := [], tasks := [], nextId := 200, clock := 200 }

/-- A completion oracle that reports the transcript length in its failure
message, used to observe how much history the orchestrator loaded. -/
def probeOracle : ModelOracle :=
  { first := fun ms => .error (.modelError (toString ms.length)),
    second := fun ms => .error (.modelError (toString ms.length)) }

/-- A completion oracle whose calls always fail. -/
def failOracle : ModelOracle :=
  { first := fun _ => .error (.modelError "boom"),
    second := fun _ => .error (.modelError "boom") }

/-- Arguments addressing a nonexistent task id (spec scenario D). -/
def argsD : ToolArgs :=
  { title := none, description := none, is_completed := none, lim := none,
    task_id := some 99 }

/-- A model request to update the nonexistent task. -/
def callD : ToolCall := { id := "call_1", name := "update_task", arguments := argsD }

/-- An oracle that first requests `callD` and then narrates an apology. -/
def oracleD : ModelOracle :=
  { first := fun _ => .ok { content := none, tool_calls := [callD] },
    second := fun _ => .ok (some "Sorry about that.") }

/-- The invocation record produced by executing `callD` on an empty task
store. -/
def invD : InvocationDict :=
  { tool_name := "update_task", input_params := renderArgs argsD,
    output_result := none, success := false,
    error_message := some "Task does not exist or does not belong to user" }

/-- The turn result of running `oracleD` on the empty store. -/
def resultD : TurnResult :=
  { agent_response_text := "Sorry about that.", conversation_id := 0,
    message_id := 2, tool_invocations := [invD] }

theorem stripChars_head_not_ws (l : List Char) (c : Char)
    (h : (stripChars l).head? = some c) : c.isWhitespace = false := by
  unfold stripChars at h
  rw [List.head?_reverse] at h
  obtain ⟨t, ht⟩ :=
    List.dropWhile_suffix (l := (l.dropWhile Char.isWhitespace).reverse)
      Char.isWhitespace
  have h2 : ((l.dropWhile Char.isWhitespace).reverse).getLast? = some c := by
    rw [← ht, List.getLast?_append, h]
    rfl
  rw [List.getLast?_reverse] at h2
  have h3 := List.head?_dropWhile_not Char.isWhitespace l
  rw [h2] at h3
  exact h3

theorem stripChars_last_not_ws (l : List Char) (c : Char)
    (h : (stripChars l).getLast? = some c) : c.isWhitespace = false := by
  unfold stripChars at h
  rw [List.getLast?_reverse] at h
  have h3 :=
    List.head?_dropWhile_not Char.isWhitespace
      ((l.dropWhile Char.isWhitespace).reverse)
  rw [h] at h3
  exact h3

theorem pyStrip_noEdgeWS (s : String) : noEdgeWS (pyStrip s) :=
  ⟨fun c h => stripChars_head_not_ws s.data c h,
   fun c h => stripChars_last_not_ws s.data c h⟩

/-- C4: for a task id not owned by the calling user, `update_task` and
`delete_task` both fail with the same constant `NotFound` error — a value
depending only on the caller-supplied id, hence indistinguishable from the
case where no task with that id exists at all and carrying no information
about another user's task — and the task store is returned unchanged. -/
theorem C4_cross_user_isolation (task_id user_id : UUID) (st : List Task)
    (title description : Option String) (is_completed : Option Bool) (now : Nat)
    (h : ∀ t ∈ st, t.id = task_id → t.user_id ≠ user_id) :
    update_task task_id user_id st title description is_completed now =
      (.error (.notFound "Task" (toString task_id)
        "Task does not exist or does not belong to user"), st)
    ∧ delete_task task_id user_id st =
      (.error (.notFound "Task" (toString task_id)
        "Task does not exist or does not belong to user"), st) := by
  have hf : st.find? (fun t => t.id == task_id && t.user_id == user_id) = none := by
    rw [List.find?_eq_none]
    intro t ht
    simp only [Bool.and_eq_true, beq_iff_eq, not_and]
    exact fun h1 h2 => h t ht h1 h2
  exact ⟨by simp [update_task, hf], by simp [delete_task, hf]⟩

theorem C4_witness :
    update_task 5 1 [{ id := 5, user_id := 2, title := "secret",
                       description := none, is_completed := false, created_at := 0,
                       updated_at := 0 }] none none none 9 =
      (.error (.notFound "Task" "5" "Task does not exist or does not belong to user"),
       [{ id := 5, user_id := 2, title := "secret", description := none,
          is_completed := false, created_at := 0, updated_at := 0 }]) :=
  (C4_cross_user_isolation 5 1 _ none none none 9 (by decide)).1

/-- C6: `create_task` fails with `ValidationError` exactly when the trimmed
title is empty or longer than 255 characters; for every title whose trimmed
form has length in 1..255 it appends a new task owned by `user_id` with
`is_completed = false` and returns the serialized form (id, title,
description, is_completed, created_at). -/
theorem C6_create_task_contract (title : String) (descr : Option String)
    (uid : UUID) (st : List Task) (newId : UUID) (now : Nat) :
    ((∃ m d, create_task (some title) descr uid st newId now =
        (.error (.validationError m d), st))
      ↔ ((pyStrip title).length = 0 ∨ 255 < (pyStrip title).length))
    ∧ (1 ≤ (pyStrip title).length → (pyStrip title).length ≤ 255 →
        create_task (some title) descr uid st newId now =
          (.ok { id := toString newId, title := pyStrip title,
                 description := descr, is_completed := false,
                 created_at := toString now },
           st ++ [{ id := newId, user_id := uid, title := pyStrip title,
                    description := descr, is_completed := false,
                    created_at := now, updated_at := now }])) := by
  by_cases h0 : (pyStrip title).length = 0
  · constructor
    · simp [create_task, h0]
    · intro h1
      omega
  · by_cases h255 : 255 < (pyStrip title).length
    · constructor
      · simp [create_task, h0, h255]
      · intro _ h2
        omega
    · constructor
      · simp [create_task, h0, h255]
      · intro _ _
        simp [create_task, h0, h255]

theorem C6_witness :
    create_task (some "  Buy milk  ") none 1 [] 7 3 =
      (.ok { id := "7", title := "Buy milk", description := none,
             is_completed := false, created_at := "3" },
       [{ id := 7, user_id := 1, title := "Buy milk", description := none,
          is_completed := false, created_at := 3, updated_at := 3 }]) :=
  (C6_create_task_contract "  Buy milk  " none 1 [] 7 3).2 (by decide) (by decide)

/-- C8: for a task found under the caller, `update_task` with none of the
optional fields supplied succeeds and rewrites only that row, replacing it
with the same record except `updated_at := now` — title, description and
completion state are untouched. -/
theorem C8_update_noop_frame (st : List Task) (task_id uid : UUID) (now : Nat)
    (tk : Task)
    (hfind : st.find? (fun u => u.id == task_id && u.user_id == uid) = some tk) :
    update_task task_id uid st none none none now =
      (.ok { id := toString tk.id, title := tk.title,
             description := tk.description, is_completed := tk.is_completed,
             updated_at := toString now },
       dbReplace st task_id { tk with updated_at := now }) := by
  simp [update_task, hfind]

theorem C8_witness :
    update_task 5 1 [{ id := 5, user_id := 1, title := "a", description := none,
                       is_completed := true, created_at := 0, updated_at := 0 }] none none none 9 =
      (.ok { id := "5", title := "a", description := none, is_completed := true,
             updated_at := "9" },
       [{ id := 5, user_id := 1, title := "a", description := none,
          is_completed := true, created_at := 0, updated_at := 9 }]) := by
  have h := C8_update_noop_frame
    [{ id := 5, user_id := 1, title := "a", description := none,
       is_completed := true, created_at := 0, updated_at := 0 }] 5 1 9
    { id := 5, user_id := 1, title := "a", description := none,
      is_completed := true, created_at := 0, updated_at := 0 } (by decide)
  simpa [dbReplace] using h

/-- C7: `list_tasks` fails with the `InvalidArgument`-class `ValueError`
exactly when the limit is outside 1..100; for every limit in range it returns
the serialisation of a selection that contains only tasks of the store owned
by `user_id`, respects the completion filter when one is supplied, is ordered
by `created_at` descending, and has at most `limit` elements. -/
theorem C7_list_tasks_contract (uid : UUID) (st : List Task)
    (flag : Option Bool) (lim : Int) :
    ((∃ m, list_tasks uid st flag lim = .error (.valueErr m))
      ↔ (lim < 1 ∨ 100 < lim))
    ∧ (1 ≤ lim → lim ≤ 100 →
        ∃ sel : List Task,
          list_tasks uid st flag lim = .ok (sel.map serializeTaskFull) ∧
          sel.length ≤ lim.toNat ∧
          List.Sorted taskDescLE sel ∧
          ∀ t ∈ sel, t ∈ st ∧ t.user_id = uid ∧
            ∀ b, flag = some b → t.is_completed = b) := by
  by_cases h : 1 ≤ lim ∧ lim ≤ 100
  · constructor
    · constructor
      · intro hm
        obtain ⟨m, hm⟩ := hm
        simp [list_tasks, h] at hm
      · intro hr
        omega
    · intro _ _
      refine ⟨list_tasks_query uid st flag lim.toNat, by simp [list_tasks, h],
          ?_, ?_, ?_⟩
      · unfold list_tasks_query
        rw [List.length_take]
        exact min_le_left _ _
      · unfold list_tasks_query
        exact List.Pairwise.sublist (List.take_sublist _ _)
          (List.sorted_insertionSort taskDescLE _)
      · intro t ht
        unfold list_tasks_query at ht
        have ht2 := List.take_subset _ _ ht
        rw [List.mem_insertionSort, List.mem_filter] at ht2
        obtain ⟨hmem, hpred⟩ := ht2
        rw [Bool.and_eq_true, beq_iff_eq] at hpred
        refine ⟨hmem, hpred.1, ?_⟩
        intro b hb
        subst hb
        have := hpred.2
        rwa [beq_iff_eq] at this
  · constructor
    · constructor
      · intro _
        omega
      · intro _
        exact ⟨s!"Limit must be between 1 and 100, got {lim}", by simp [list_tasks, h]⟩
    · intro h1 h2
      exact absurd ⟨h1, h2⟩ h

theorem C7_witness :
    ∃ sel : List Task,
      list_tasks 1 [] none 10 = .ok (sel.map serializeTaskFull) ∧
      sel.length ≤ (10 : Int).toNat ∧
      List.Sorted taskDescLE sel ∧
      ∀ t ∈ sel, t ∈ ([] : List Task) ∧ t.user_id = 1 ∧
        ∀ b, (none : Option Bool) = some b → t.is_completed = b :=
  (C7_list_tasks_contract 1 [] none 10).2 (by decide) (by decide)

/-- C10: every accepted title is persisted and returned trimmed: a successful
`create_task` returns a dict whose title is the stripped input and appends a
task with that title, a successful `update_task` with a supplied title returns
the stripped input and stores it on the addressed row, and the stripped form
carries no leading or trailing whitespace (so it may differ from the raw
input). -/
theorem C10_title_trimmed (title : String) (descr : Option String) (uid : UUID)
    (st : List Task) (newId : UUID) (now : Nat) (task_id : UUID)
    (descr2 : Option String) (compl2 : Option Bool) :
    (∀ d st1, create_task (some title) descr uid st newId now = (.ok d, st1) →
        d.title = pyStrip title ∧ ∃ t, st1 = st ++ [t] ∧ t.title = pyStrip title)
    ∧ (∀ u st2,
        update_task task_id uid st (some title) descr2 compl2 now = (.ok u, st2) →
        u.title = pyStrip title ∧ ∀ t ∈ st2, t.id = task_id → t.title = pyStrip title)
    ∧ noEdgeWS (pyStrip title) := by
  refine ⟨?_, ?_, pyStrip_noEdgeWS title⟩
  · intro d st1 hc
    by_cases h0 : (pyStrip title).length = 0
    · simp [create_task, h0] at hc
    · by_cases h255 : 255 < (pyStrip title).length
      · simp [create_task, h0, h255] at hc
      · simp only [create_task, h0, h255, if_false, if_neg, Prod.mk.injEq] at hc
        obtain ⟨h1, h2⟩ := hc
        rw [Except.ok.injEq] at h1
        cases h1
        exact ⟨rfl, _, h2.symm, rfl⟩
  · intro u st2 hu
    unfold update_task at hu
    cases hfind : st.find? (fun t => t.id == task_id && t.user_id == uid) with
    | none =>
      rw [hfind] at hu
      simp at hu
    | some tk =>
      rw [hfind] at hu
      by_cases h0 : (pyStrip title).length = 0
      · simp [h0] at hu
      · by_cases h255 : 255 < (pyStrip title).length
        · simp [h0, h255] at hu
        · simp only [h0, h255, if_false, Prod.mk.injEq] at hu
          obtain ⟨h1, h2⟩ := hu
          rw [Except.ok.injEq] at h1
          cases h1
          refine ⟨rfl, ?_⟩
          intro t ht htid
          rw [← h2] at ht
          unfold dbReplace at ht
          rw [List.mem_map] at ht
          obtain ⟨w, hw, hwt⟩ := ht
          by_cases hid : w.id == task_id
          · rw [if_pos hid] at hwt
            rw [← hwt]
          · rw [if_neg hid] at hwt
            rw [← hwt] at htid
            exact absurd htid (by simpa using hid)

/-- C1: the spec and the inline comment of `_build_openai_messages`
(`agent` maps to `assistant`) promise a transcript free of the store role
`agent`; the code copies the stored role verbatim. Evaluating at the failing
input — a history of one stored agent message — the transcript roles are
`system`, `agent`, `user`: the mapping never happens and the `agent` role
reaches the model. -/
theorem C1_agent_role_reaches_transcript :
    (_build_openai_messages
        [{ id := 1, conversation_id := 0, role := "agent", content := "hi",
           created_at := 0 }] "hello").map ChatEntry.roleTag
      = ["system", "agent", "user"] := by rfl

/-- C2 (amended): the orchestrator loads the conversation history through
`get_conversation_messages` with its default cap of 100 rows; the loaded
history is the conversation's messages ordered by `created_at` ascending
truncated to the first 100, so all N messages appear exactly when N is at
most 100. -/
theorem C2_history_loading_amended (s : Store) (cid : UUID)
    (h : (s.messages.filter (fun m => m.conversation_id == cid)).length ≤ 100) :
    List.Perm (get_conversation_messages cid s)
      (s.messages.filter (fun m => m.conversation_id == cid))
    ∧ List.Sorted msgAscLE (get_conversation_messages cid s) := by
  unfold get_conversation_messages
  rw [List.drop_zero]
  constructor
  · rw [List.take_of_length_le]
    · exact List.perm_insertionSort _ _
    · rw [(List.perm_insertionSort msgAscLE _).length_eq]
      exact h
  · exact List.Pairwise.sublist (List.take_sublist _ _)
      (List.sorted_insertionSort msgAscLE _)

theorem C2_witness :
    List.Perm (get_conversation_messages 0 emptyStore)
      (emptyStore.messages.filter (fun m => m.conversation_id == 0))
    ∧ List.Sorted msgAscLE (get_conversation_messages 0 emptyStore) :=
  C2_history_loading_amended emptyStore 0 (by decide)

/-- C2 (counterexample): conversation 0 of `store101` holds 101 messages, yet
the orchestrator hands the model a transcript of 102 entries (one system
message, 100 history messages, the new user message) — observed through an
oracle that reports the transcript length — so one stored message is missing
from the rebuilt history, refuting the claim at N = 101. -/
theorem C2_counterexample :
    (process_message "hi" 1 (some 0) probeOracle store101).1
        = .error (.modelError "102")
    ∧ (store101.messages.filter (fun m => m.conversation_id == 0)).length = 101 := by
  exact ⟨rfl, rfl⟩

/-- C3 (amended): when a turn started with no conversation id fails at the
first model call, the turn aborts with that error, but the freshly created
Conversation row has already been committed and remains in the store; no
message, tool invocation or task is persisted. -/
theorem C3_conversation_row_survives_abort (s : Store) (uid : UUID)
    (m : String) (e : Err) (oracle : ModelOracle)
    (hlen : m.length ≤ 5000)
    (h1 : ∀ ms, oracle.first ms = .error e) :
    process_message m uid none oracle s =
      (.error e,
       { s with
         conversations := s.conversations ++
           [{ id := s.nextId, user_id := uid, title := none,
              created_at := s.clock, updated_at := s.clock }],
         nextId := s.nextId + 1, clock := s.clock + 1 }) := by
  unfold process_message
  rw [if_neg (by omega)]
  simp only [h1]
  rfl

theorem C3_witness :
    process_message "hello" 1 none failOracle emptyStore =
      (.error (.modelError "boom"),
       { conversations := [{ id := 0, user_id := 1, title := none,
                             created_at := 0, updated_at := 0 }],
         messages := [], tool_invocations := [], tasks := [],
         nextId := 1, clock := 1 }) :=
  C3_conversation_row_survives_abort emptyStore 1 "hello" (.modelError "boom")
    failOracle (by decide) (fun _ => rfl)

/-- C3 (counterexample): starting from the empty store with no conversation
id, a turn whose first model call raises aborts with the model error — yet
the final store contains a new Conversation row, refuting that nothing is
persisted when a turn fails. -/
theorem C3_counterexample :
    (process_message "hi there" 1 none failOracle emptyStore).1
        = .error (.modelError "boom")
    ∧ ((process_message "hi there" 1 none failOracle emptyStore).2).conversations
        = [{ id := 0, user_id := 1, title := none, created_at := 0,
             updated_at := 0 }] := by
  exact ⟨rfl, rfl⟩

theorem runToolCalls_entries (calls : List ToolCall) (uid : UUID) :
    ∀ s : Store,
      (runToolCalls calls uid s).1.length = calls.length ∧
      ∀ inv ∈ (runToolCalls calls uid s).1,
        (inv.success = true →
          inv.error_message = none ∧ ∃ r, inv.output_result = some r) ∧
        (inv.success = false →
          inv.output_result = none ∧ ∃ msg, inv.error_message = some msg) := by
  induction calls with
  | nil =>
    intro s
    simp [runToolCalls]
  | cons tc rest ih =>
    intro s
    simp only [runToolCalls, List.length_cons, List.mem_cons]
    constructor
    · simp [(ih _).1]
    · intro inv hinv
      rcases hinv with h | h
      · subst h
        cases hr : (_execute_tool tc.name tc.arguments uid s).1 with
        | ok res => simp [invRecord, hr]
        | error e2 => simp [invRecord, hr]
      · exact (ih _).2 inv h

theorem _execute_tool_conversations (tool_name : String) (args : ToolArgs)
    (uid : UUID) (s : Store) :
    ((_execute_tool tool_name args uid s).2).conversations = s.conversations := by
  unfold _execute_tool freshId nowTick
  dsimp only
  repeat' split
  all_goals rfl

theorem runToolCalls_conversations (calls : List ToolCall) (uid : UUID) :
    ∀ s : Store, ((runToolCalls calls uid s).2).conversations = s.conversations := by
  induction calls with
  | nil =>
    intro s
    rfl
  | cons tc rest ih =>
    intro s
    simp only [runToolCalls]
    rw [ih, _execute_tool_conversations]

theorem persistInvocations_conversations (mid : UUID) (invs : List InvocationDict) :
    ∀ s : Store, (persistInvocations mid invs s).conversations = s.conversations := by
  induction invs with
  | nil =>
    intro s
    rfl
  | cons inv rest ih =>
    intro s
    simp only [persistInvocations, freshId, nowTick]
    rw [ih]

theorem create_message_ok (cid : UUID) (role : String) (c : String) (s : Store)
    (hrole : role = "user" ∨ role = "agent") (hlen : c.length ≤ 5000) :
    create_message cid role (some c) s =
      (.ok { id := s.nextId, conversation_id := cid, role := role, content := c,
             created_at := s.clock },
       { s with
         messages := s.messages ++
           [{ id := s.nextId, conversation_id := cid, role := role, content := c,
              created_at := s.clock }],
         nextId := s.nextId + 1, clock := s.clock + 1 }) := by
  unfold create_message
  rw [if_neg (not_not_intro hrole)]
  dsimp only
  rw [if_neg (by omega : ¬5000 < c.length)]
  rfl

theorem update_conversation_timestamp_isOk (cid : UUID) (s : Store)
    (h : ∃ conv ∈ s.conversations, conv.id = cid) :
    (update_conversation_timestamp cid s).1 = .ok () := by
  unfold update_conversation_timestamp
  cases hf : s.conversations.find? (fun cv => cv.id == cid) with
  | none =>
    exfalso
    rw [List.find?_eq_none] at hf
    obtain ⟨conv, hmem, hid⟩ := h
    exact hf conv hmem (by simp [hid])
  | some cv =>
    simp only [hf]

theorem finishTurn_ok (cid : UUID) (m txt : String) (invs : List InvocationDict)
    (s : Store) (hm : m.length ≤ 5000) (ht : txt.length ≤ 5000)
    (hc : ∃ conv ∈ s.conversations, conv.id = cid) :
    ∃ mid s4, finishTurn cid m (some txt) invs s =
      (.ok { agent_response_text := txt, conversation_id := cid,
             message_id := mid, tool_invocations := invs }, s4) := by
  have hu : ∀ s0 : Store, create_message cid "user" (some m) s0 = _ :=
    fun s0 => create_message_ok cid "user" m s0 (Or.inl rfl) hm
  have ha : ∀ s0 : Store, create_message cid "agent" (some txt) s0 = _ :=
    fun s0 => create_message_ok cid "agent" txt s0 (Or.inr rfl) ht
  simp only [finishTurn, hu, ha]
  split
  · rename_i e heq
    rw [update_conversation_timestamp_isOk cid _ ?_] at heq
    · cases heq
    · rw [persistInvocations_conversations]
      simpa using hc
  · exact ⟨_, _, rfl⟩

theorem finishTurn_completes (cid : UUID) (m txt : String)
    (invs : List InvocationDict) (s : Store) (n : Nat)
    (hm : m.length ≤ 5000) (ht : txt.length ≤ 5000)
    (hc : ∃ conv ∈ s.conversations, conv.id = cid)
    (hlen : invs.length = n)
    (hprop : ∀ inv ∈ invs, inv.success = false →
      inv.output_result = none ∧
      ∃ e, inv.error_message = some e ∧ toolMsgContent inv = "Error: " ++ e) :
    ∃ r s4, finishTurn cid m (some txt) invs s = (.ok r, s4) ∧
      r.agent_response_text = txt ∧
      r.tool_invocations.length = n ∧
      ∀ inv ∈ r.tool_invocations, inv.success = false →
        inv.output_result = none ∧
        ∃ e, inv.error_message = some e ∧ toolMsgContent inv = "Error: " ++ e := by
  obtain ⟨mid, s4, heq⟩ := finishTurn_ok cid m txt invs s hm ht hc
  exact ⟨_, s4, heq, rfl, hlen, hprop⟩

theorem finishTurn_toolInvs (cid : UUID) (m : String) (agentText : Option String)
    (invs : List InvocationDict) (s : Store) (r : TurnResult) (s4 : Store)
    (h : finishTurn cid m agentText invs s = (.ok r, s4)) :
    r.tool_invocations = invs := by
  simp only [finishTurn] at h
  split at h
  · exact absurd h (by simp)
  · split at h
    · exact absurd h (by simp)
    · split at h
      · exact absurd h (by simp)
      · simp only [Prod.mk.injEq, Except.ok.injEq] at h
        rw [← h.1]

/-- C5: a tool call whose execution raises does not abort the turn: under a
model that requests at least one tool call and then answers, the turn
completes with the final agent response, one invocation record per requested
call is produced, and every failed record carries no output, a non-null
error description, and hands the model `Error: ` followed by that
description in its tool-result transcript entry. (No assumption is made on
tool outcomes: the conclusion holds whether the executions succeed or
raise.) -/
theorem C5_tool_failure_does_not_abort (s : Store) (uid : UUID) (m : String)
    (cid? : Option UUID) (oracle : ModelOracle) (content1 : Option String)
    (c : ToolCall) (cs : List ToolCall) (txt : String)
    (hm : m.length ≤ 5000) (ht : txt.length ≤ 5000)
    (hcid : ∀ cc, cid? = some cc → ∃ conv ∈ s.conversations, conv.id = cc)
    (h1 : ∀ ms, oracle.first ms = .ok { content := content1, tool_calls := c :: cs })
    (h2 : ∀ ms, oracle.second ms = .ok (some txt)) :
    (∃ r s4, process_message m uid cid? oracle s = (.ok r, s4) ∧
      r.agent_response_text = txt ∧
      r.tool_invocations.length = (c :: cs).length ∧
      ∀ inv ∈ r.tool_invocations, inv.success = false →
        inv.output_result = none ∧
        ∃ e, inv.error_message = some e ∧
          toolMsgContent inv = "Error: " ++ e)
    ∧ ∀ (s0 : Store) (tc : ToolCall) (rest : List ToolCall) (e : Err),
        (_execute_tool tc.name tc.arguments uid s0).1 = .error e →
        (runToolCalls (tc :: rest) uid s0).1.head? =
          some { tool_name := tc.name, input_params := renderArgs tc.arguments,
                 output_result := none, success := false,
                 error_message := some (errStr e) } := by
  refine ⟨?_, ?_⟩
  case refine_2 =>
    intro s0 tc rest e he
    simp [runToolCalls, invRecord, he]
  unfold process_message
  rw [if_neg (by omega)]
  simp only [h1, h2]
  cases cid? with
  | none =>
    dsimp only [create_conversation, freshId, nowTick]
    refine finishTurn_completes _ m txt _ _ _ hm ht ?_ ?_ ?_
    · rw [runToolCalls_conversations]
      exact ⟨{ id := s.nextId, user_id := uid, title := none,
               created_at := s.clock, updated_at := s.clock }, by simp, rfl⟩
    · exact (runToolCalls_entries _ uid _).1
    · intro inv hinv hfail
      obtain ⟨ho, e, he⟩ := ((runToolCalls_entries _ uid _).2 inv hinv).2 hfail
      exact ⟨ho, e, he, by simp [toolMsgContent, hfail, he]⟩
  | some cc =>
    dsimp only
    refine finishTurn_completes _ m txt _ _ _ hm ht ?_ ?_ ?_
    · rw [runToolCalls_conversations]
      exact hcid cc rfl
    · exact (runToolCalls_entries _ uid _).1
    · intro inv hinv hfail
      obtain ⟨ho, e, he⟩ := ((runToolCalls_entries _ uid _).2 inv hinv).2 hfail
      exact ⟨ho, e, he, by simp [toolMsgContent, hfail, he]⟩

theorem C5_witness :
    ∃ r s4,
      process_message "Complete task 99" 1 none oracleD emptyStore = (.ok r, s4) ∧
      r.agent_response_text = "Sorry about that." ∧
      r.tool_invocations.length = ([callD] : List ToolCall).length ∧
      ∀ inv ∈ r.tool_invocations, inv.success = false →
        inv.output_result = none ∧
        ∃ e, inv.error_message = some e ∧
          toolMsgContent inv = "Error: " ++ e :=
  (C5_tool_failure_does_not_abort emptyStore 1 "Complete task 99" none oracleD
    none callD [] "Sorry about that." (by decide) (by decide)
    (fun cc hcc => by cases hcc) (fun _ => rfl) (fun _ => rfl)).1

/-- C9: in every successfully completed turn, each invocation entry yields a
summary in which exactly one of `result` and `error` is populated, selected
by the `success` flag: a successful entry has a non-null result and null
error, a failed entry a null result and non-null error. -/
theorem C9_summary_result_error_exclusive (s : Store) (uid : UUID) (m : String)
    (cid? : Option UUID) (oracle : ModelOracle) (r : TurnResult) (s4 : Store)
    (h : process_message m uid cid? oracle s = (.ok r, s4)) :
    ∀ inv ∈ r.tool_invocations,
      (inv.success = true → (toolInvocationSummary inv).result ≠ none ∧
        (toolInvocationSummary inv).error = none) ∧
      (inv.success = false → (toolInvocationSummary inv).result = none ∧
        (toolInvocationSummary inv).error ≠ none) := by
  simp only [process_message] at h
  split at h
  · exact absurd h (by simp)
  · split at h
    · exact absurd h (by simp)
    · split at h
      · have h0 := finishTurn_toolInvs _ _ _ _ _ _ _ h
        simp [h0]
      · split at h
        · exact absurd h (by simp)
        · have h0 := finishTurn_toolInvs _ _ _ _ _ _ _ h
          rw [h0]
          intro inv hinv
          have hent := (runToolCalls_entries _ uid _).2 inv hinv
          constructor
          · intro hs
            obtain ⟨he, r0, ho⟩ := hent.1 hs
            simp [toolInvocationSummary, hs, he, ho]
          · intro hs
            obtain ⟨ho, msg, he⟩ := hent.2 hs
            simp [toolInvocationSummary, hs, ho, he]

theorem C9_witness :
    (toolInvocationSummary invD).result = none ∧
    (toolInvocationSummary invD).error ≠ none := by
  have h := C9_summary_result_error_exclusive emptyStore 1 "Fix it" none oracleD
    resultD ((process_message "Fix it" 1 none oracleD emptyStore).2) (by rfl)
  have hm : invD ∈ resultD.tool_invocations := by simp [resultD]
  exact (h invD hm).2 rfl

theorem C10_witness :
    ({ id := "7", title := "Buy milk", description := none,
       is_completed := false, created_at := "3" } : TaskDict).title =
        pyStrip "  Buy milk  " ∧
    ∃ t, ([{ id := 7, user_id := 1, title := "Buy milk", description := none,
             is_completed := false, created_at := 3, updated_at := 3 }] : List Task)
          = [] ++ [t] ∧ t.title = pyStrip "  Buy milk  " :=
  (C10_title_trimmed "  Buy milk  " none 1 [] 7 3 0 none none).1 _ _ (by rfl)

end TaskApi
